import Mathlib

/-!
Verification of the cachu memoization library: a shallow embedding of its
storage backends (memory, sqlite), per-key mutexes, manager statistics and
the synchronous decorator protocol, with theorems checking the
natural-language specification against the code.

Conventions of the embedding:
* wall-clock times and ttl values are integers (`Int`);
* cached payloads are serialized blobs: `Blob.ok v` stands for bytes that
  deserialize to `v`, `Blob.bad` for bytes on which deserialization raises
  (the corrupt-data case);
* a backend store (the memory dict / the sqlite cache table) is an
  association list from key strings to entries;
* Python dict/table reads that raise are modelled with `Option`;
  fallible user computations are `Except`.
-/

namespace Cachu

/-! ## Association lists: the shared model of Python dicts and sqlite tables -/

/-- Lookup of a key in an association list (Python `dict.get` / SQL SELECT by
primary key). -/
def alookup {κ ν : Type} [DecidableEq κ] : List (κ × ν) → κ → Option ν
  | [], _ => none
  | (k, v) :: rest, key => if k = key then some v else alookup rest key

/-- Upsert of a key in an association list (Python dict assignment / SQL
INSERT OR REPLACE): replaces the first binding of the key, or appends a new
binding at the end. -/
def aset {κ ν : Type} [DecidableEq κ] : List (κ × ν) → κ → ν → List (κ × ν)
  | [], key, v => [(key, v)]
  | (k, w) :: rest, key, v =>
      if k = key then (k, v) :: rest else (k, w) :: aset rest key v

/-- Removal of a key from an association list (Python `del` / `dict.pop` with
default / SQL DELETE by key); removing an absent key is a no-op. -/
def aerase {κ ν : Type} [DecidableEq κ] : List (κ × ν) → κ → List (κ × ν)
  | [], _ => []
  | (k, v) :: rest, key =>
      if k = key then rest else (k, v) :: aerase rest key

@[simp] theorem alookup_nil {κ ν : Type} [DecidableEq κ] (key : κ) :
    alookup ([] : List (κ × ν)) key = none := rfl

@[simp] theorem alookup_aset_self {κ ν : Type} [DecidableEq κ]
    (l : List (κ × ν)) (key : κ) (v : ν) :
    alookup (aset l key v) key = some v := by
  induction l with
  | nil => simp [aset, alookup]
  | cons hd tl ih =>
      obtain ⟨k, w⟩ := hd
      by_cases h : k = key
      · simp [aset, alookup, h]
      · simp [aset, alookup, h, ih]

theorem alookup_aset_other {κ ν : Type} [DecidableEq κ]
    (l : List (κ × ν)) (key key' : κ) (v : ν) (hne : key ≠ key') :
    alookup (aset l key v) key' = alookup l key' := by
  induction l with
  | nil => simp [aset, alookup, hne]
  | cons hd tl ih =>
      obtain ⟨k, w⟩ := hd
      by_cases h : k = key
      · subst h
        simp [aset, alookup, hne]
      · simp [aset, alookup, h, ih]

theorem aerase_absent {κ ν : Type} [DecidableEq κ]
    (l : List (κ × ν)) (key : κ) (h : alookup l key = none) :
    aerase l key = l := by
  induction l with
  | nil => rfl
  | cons hd tl ih =>
      obtain ⟨k, w⟩ := hd
      by_cases hk : k = key
      · simp [alookup, hk] at h
      · simp [aerase, hk]
        exact ih (by simpa [alookup, hk] using h)

@[simp] theorem alookup_aerase_self {κ ν : Type} [DecidableEq κ]
    (l : List (κ × ν)) (key : κ) (hnd : (l.map Prod.fst).Nodup) :
    alookup (aerase l key) key = none := by
  induction l with
  | nil => rfl
  | cons hd tl ih =>
      obtain ⟨k, w⟩ := hd
      simp only [List.map_cons, List.nodup_cons] at hnd
      by_cases hk : k = key
      · subst hk
        simp only [aerase, if_pos rfl]
        clear ih
        induction tl with
        | nil => rfl
        | cons hd2 tl2 ih2 =>
            obtain ⟨k2, w2⟩ := hd2
            simp only [List.map_cons, List.mem_cons, not_or] at hnd
            have hk2 : k2 ≠ k := fun h => hnd.1.1 h.symm
            simp [alookup, hk2]
            exact ih2 ⟨fun h => hnd.1.2 h, (List.nodup_cons.mp hnd.2).2⟩
      · simp only [aerase, if_neg hk, alookup, if_neg hk]
        exact ih hnd.2

/-! ## Glob pattern matching

Both `fnmatch.fnmatch` (memory backend) and the sqlite GLOB operator are used
only with the shell-glob subset consisting of literal characters, the
any-sequence wildcard and the any-single-character wildcard. -/

/-- Matching helper for the any-sequence wildcard: tries the continuation on
the whole string and on every shorter suffix. -/
def globMatchStar (go : List Char → Bool) : List Char → Bool
  | [] => go []
  | c :: cs => go (c :: cs) || globMatchStar go cs

/-- Shell-glob matching of a pattern against a string, on character lists:
a star matches any (possibly empty) sequence, a question mark any single
character, anything else itself. -/
def globMatch : List Char → List Char → Bool
  | [], cs => cs.isEmpty
  | p :: ps, cs =>
      if p = '*' then globMatchStar (fun t => globMatch ps t) cs
      else
        match cs with
        | [] => false
        | c :: cs2 => (if p = '?' then true else decide (p = c)) && globMatch ps cs2

/-- Matching of an optional glob pattern: a missing pattern matches every key
(pattern None in the backend API). -/
def patMatch (pat : Option String) (key : String) : Bool :=
  match pat with
  | none => true
  | some p => globMatch p.toList key.toList

/-! ## Serialized payloads -/

/-- Stored bytes of a cache entry: either bytes that deserialize to a value,
or corrupt bytes on which deserialization raises. -/
inductive Blob (α : Type) where
  | ok (v : α)
  | bad
  deriving DecidableEq, Repr

/-- One row of a backend store: serialized value, write timestamp and expiry
timestamp, with expiry = write time + ttl. -/
structure Entry (α : Type) where
  value : Blob α
  created_at : Int
  expires_at : Int
  deriving DecidableEq, Repr

/-- A backend store: the memory dict or the sqlite cache table. -/
def Store (α : Type) : Type := List (String × Entry α)

instance {α : Type} [DecidableEq α] : DecidableEq (Store α) := by
  unfold Store
  infer_instance

/-! ## Mutexes (mutex.py)

A `ThreadingMutex` handle is a pair of the registry key naming the underlying
shared `threading.Lock` (the class-level `_locks` dict is keyed by that
string, so two handles share the underlying lock exactly when their keys are
equal) and the per-handle `_acquired` flag.  The state of the underlying lock
is passed explicitly as a `Bool` (`true` = currently held).  An `acquire`
call with a timeout on a lock that stays held by another holder returns
`false`; on a free lock it succeeds. -/

structure ThreadingMutex where
  key : String
  acquired : Bool
  deriving DecidableEq, Repr

namespace ThreadingMutex

/-- Constructor: registers (or reuses) the shared lock named by the key and
starts with the acquired flag cleared. -/
def init (key : String) : ThreadingMutex := ⟨key, false⟩

/-- Identity of the underlying shared lock: the registry key of the
class-level locks dict. -/
def lockId (m : ThreadingMutex) : String := m.key

/-- Acquire with timeout: the acquired flag is set to the result of the
underlying acquire call.  Returns (result, handle, lock state). -/
def acquire (m : ThreadingMutex) (lockHeld : Bool) : Bool × ThreadingMutex × Bool :=
  if lockHeld then (false, { m with acquired := false }, lockHeld)
  else (true, { m with acquired := true }, true)

/-- Release: only touches the underlying lock when this handle holds it. -/
def release (m : ThreadingMutex) (lockHeld : Bool) : ThreadingMutex × Bool :=
  if m.acquired then ({ m with acquired := false }, false) else (m, lockHeld)

end ThreadingMutex

/-- No-op mutex used by the null backend. -/
inductive NullMutex where
  | mk
  deriving DecidableEq, Repr

namespace NullMutex

/-- Always acquires instantly. -/
def acquire (_ : NullMutex) : Bool := true

/-- No-op release. -/
def release (m : NullMutex) : NullMutex := m

end NullMutex

/-- Per-key asyncio.Lock mutex: same handle structure as the threading
variant (registry key plus acquired flag), with the lock state explicit. -/
structure AsyncioMutex where
  key : String
  acquired : Bool
  deriving DecidableEq, Repr

namespace AsyncioMutex

/-- Constructor: registers (or reuses) the shared asyncio.Lock by key. -/
def init (key : String) : AsyncioMutex := ⟨key, false⟩

/-- Acquire with timeout: on success the acquired flag is set; on timeout the
wait is cancelled and the handle is unchanged (flag stays false). -/
def acquire (m : AsyncioMutex) (lockHeld : Bool) : Bool × AsyncioMutex × Bool :=
  if lockHeld then (false, m, lockHeld)
  else (true, { m with acquired := true }, true)

/-- Release: only touches the underlying lock when this handle holds it. -/
def release (m : AsyncioMutex) (lockHeld : Bool) : AsyncioMutex × Bool :=
  if m.acquired then ({ m with acquired := false }, false) else (m, lockHeld)

end AsyncioMutex

/-- Distributed Redis lock handle: lock key, random per-holder token and the
acquired flag.  The Redis-side state is the value stored at the lock key
(`none` = no holder). -/
structure RedisMutex where
  key : String
  token : Nat
  acquired : Bool
  deriving DecidableEq, Repr

namespace RedisMutex

/-- Acquire: polls SET key token NX EX until timeout; succeeds exactly when
the key is absent, storing this holder token.  A key that stays held by
another holder leads to a timeout with no state change. -/
def acquire (m : RedisMutex) (stored : Option Nat) : Bool × RedisMutex × Option Nat :=
  match stored with
  | none => (true, { m with acquired := true }, some m.token)
  | some t => (false, m, some t)

/-- Release: when this handle acquired the lock, runs the atomic
compare-and-delete script (deletes the key only if it still stores this
holder token) and clears the flag; otherwise a no-op. -/
def release (m : RedisMutex) (stored : Option Nat) : RedisMutex × Option Nat :=
  if m.acquired then
    ({ m with acquired := false }, if stored = some m.token then none else stored)
  else (m, stored)

end RedisMutex

/-! ## Memory backend (backends/memory.py) -/

namespace MemoryBackend

variable {α : Type}

/-- Core read: absent key is a miss; an expired entry (read time strictly
after the expiry timestamp) is lazily deleted and missed; bytes that fail to
deserialize are deleted and missed (the deserialization exceptions are
caught, never raised to the caller). -/
def do_get (now : Int) (key : String) (cache : Store α) :
    (Option α × Option Int) × Store α :=
  match alookup cache key with
  | none => ((none, none), cache)
  | some e =>
      if now > e.expires_at then ((none, none), aerase cache key)
      else
        match e.value with
        | Blob.ok v => ((some v, some e.created_at), cache)
        | Blob.bad => ((none, none), aerase cache key)

/-- Core write: upserts the serialized value with created_at = now and
expires_at = now + ttl. -/
def do_set (now : Int) (key : String) (v : α) (ttl : Int) (cache : Store α) :
    Store α :=
  aset cache key ⟨Blob.ok v, now, now + ttl⟩

/-- Core delete: pop with default, absent key is a no-op. -/
def do_delete (key : String) (cache : Store α) : Store α :=
  aerase cache key

/-- Core key enumeration: walks the table, collecting non-expired keys that
match the pattern and deleting the expired entries seen on the way. -/
def do_keys (now : Int) (pat : Option String) : Store α → List String × Store α
  | [] => ([], [])
  | (k, e) :: rest =>
      let r := do_keys now pat rest
      if now > e.expires_at then r
      else if patMatch pat k then (k :: r.1, (k, e) :: r.2)
      else (r.1, (k, e) :: r.2)

/-- Public read of the value alone (the lock-holding wrapper of do_get). -/
def get (now : Int) (key : String) (cache : Store α) : Option α × Store α :=
  let r := do_get now key cache
  (r.1.1, r.2)

/-- Public read of value and creation timestamp. -/
def get_with_metadata (now : Int) (key : String) (cache : Store α) :
    (Option α × Option Int) × Store α :=
  do_get now key cache

/-- Public write. -/
def set (now : Int) (key : String) (v : α) (ttl : Int) (cache : Store α) :
    Store α :=
  do_set now key v ttl cache

/-- Public delete. -/
def delete (key : String) (cache : Store α) : Store α :=
  do_delete key cache

/-- Count of matching keys: the length of the enumeration result. -/
def count (now : Int) (pat : Option String) (cache : Store α) : Nat :=
  (do_keys now pat cache).1.length

/-- Mutex for dogpile prevention on a key: a ThreadingMutex whose registry
name depends only on the literal backend kind and the key, not on the
backend instance (the instance parameter is unused, as in the source). -/
def get_mutex (_instanceId : Nat) (key : String) : ThreadingMutex :=
  ThreadingMutex.init ("memory:" ++ key)

end MemoryBackend

/-! ## Sqlite backend (backends/sqlite.py), sync interface -/

namespace SqliteBackend

variable {α : Type}

/-- Read of the value alone: absent row misses; an expired row is deleted and
missed; a value blob that fails to deserialize is caught by the blanket
exception handler and returned as a miss, leaving the row in place. -/
def get (now : Int) (key : String) (db : Store α) : Option α × Store α :=
  match alookup db key with
  | none => (none, db)
  | some e =>
      if now > e.expires_at then (none, aerase db key)
      else
        match e.value with
        | Blob.ok v => (some v, db)
        | Blob.bad => (none, db)

/-- Read of value and creation timestamp, with the same miss handling as
get: the corrupt-blob case returns a miss without deleting the row. -/
def get_with_metadata (now : Int) (key : String) (db : Store α) :
    (Option α × Option Int) × Store α :=
  match alookup db key with
  | none => ((none, none), db)
  | some e =>
      if now > e.expires_at then ((none, none), aerase db key)
      else
        match e.value with
        | Blob.ok v => ((some v, some e.created_at), db)
        | Blob.bad => ((none, none), db)

/-- Write: INSERT OR REPLACE with created_at = now and expires_at = now + ttl. -/
def set (now : Int) (key : String) (v : α) (ttl : Int) (db : Store α) :
    Store α :=
  aset db key ⟨Blob.ok v, now, now + ttl⟩

/-- Count of rows whose key matches the GLOB pattern and whose expiry is
strictly in the future. -/
def count (now : Int) (pat : Option String) (db : Store α) : Nat :=
  db.countP (fun kv => patMatch pat kv.1 && decide (kv.2.expires_at > now))

/-- Mutex for dogpile prevention on a key: a ThreadingMutex whose registry
name is derived from the backend kind, the database file path and the key. -/
def get_mutex (filepath : String) (key : String) : ThreadingMutex :=
  ThreadingMutex.init ("sqlite:" ++ filepath ++ ":" ++ key)

/-- Backend stat table: fn_name to (hits, misses). -/
def StatTable : Type := List (String × Nat × Nat)

instance : DecidableEq StatTable := by
  unfold StatTable
  infer_instance

/-- Upsert-increment of one stat counter for a function name (INSERT of a
fresh (1,0) or (0,1) row, or ON CONFLICT increment of the named column). -/
def incr_stat (stats : StatTable) (fn_name : String) (isHit : Bool) :
    StatTable :=
  match alookup stats fn_name with
  | none => aset stats fn_name (if isHit then (1, 0) else (0, 1))
  | some hm => aset stats fn_name (if isHit then (hm.1 + 1, hm.2) else (hm.1, hm.2 + 1))

/-- Read of the (hits, misses) row for a function name, (0, 0) when absent. -/
def get_stats (stats : StatTable) (fn_name : String) : Nat × Nat :=
  (alookup stats fn_name).getD (0, 0)

end SqliteBackend

/-! ## Cache manager statistics (decorator.py, CacheManager)

The manager keeps an in-process dict from id(fn) to (hits, misses); function
identities are modelled as naturals. -/

namespace CacheManager

/-- In-process stats dict: fn id to (hits, misses). -/
def MgrStats : Type := List (Nat × Nat × Nat)

instance : DecidableEq MgrStats := by
  unfold MgrStats
  infer_instance

/-- Read of the (hits, misses) pair for a function id, (0, 0) when absent. -/
def get_stats (stats : MgrStats) (fn_id : Nat) : Nat × Nat :=
  (alookup stats fn_id).getD (0, 0)

/-- Record of a cache hit: read the current pair with default (0, 0)
and store it back with hits incremented. -/
def record_hit (stats : MgrStats) (fn_id : Nat) : MgrStats :=
  let hm := get_stats stats fn_id
  aset stats fn_id (hm.1 + 1, hm.2)

/-- Record of a cache miss: read the current pair with default (0, 0)
and store it back with misses incremented. -/
def record_miss (stats : MgrStats) (fn_id : Nat) : MgrStats :=
  let hm := get_stats stats fn_id
  aset stats fn_id (hm.1, hm.2 + 1)

/-- Registry key under which the manager caches live backend instances:
the (package, backend type, ttl) triple. -/
def registry_key (package backend_type : String) (ttl : Int) :
    String × String × Int :=
  (package, backend_type, ttl)

end CacheManager

/-! ## Decorator core (decorator.py) -/

/-- The decorator ttl argument: a literal number of seconds, or a callable
computing the ttl from the computed result. -/
inductive TtlSpec (α : Type) where
  | fixed (n : Int)
  | dyn (f : α → Int)

/-- Discriminant used for backend-instance keying: the sentinel -1 when the
ttl argument is callable, the literal ttl otherwise. -/
def ttl_for_backend {α : Type} (spec : TtlSpec α) : Int :=
  match spec with
  | TtlSpec.fixed n => n
  | TtlSpec.dyn _ => -1

/-- Effective ttl passed to the store on a successful compute: the ttl
function applied to the result when callable, the literal ttl otherwise. -/
def resolved_ttl {α : Type} (spec : TtlSpec α) (result : α) : Int :=
  match spec with
  | TtlSpec.fixed n => n
  | TtlSpec.dyn f => f result

/-- Data part of the CacheMeta record attached at wrap time (the callable
fields are kept as separate parameters of the protocol). -/
structure CacheMeta where
  ttl : Int
  backend : String
  package : String
  tag : String
  deriving DecidableEq, Repr

/-- CacheMeta construction in the decorator body: the stored ttl is the
backend-keying discriminant, not the raw ttl argument. -/
def mkCacheMeta {α : Type} (spec : TtlSpec α) (backend package tag : String) :
    CacheMeta :=
  ⟨ttl_for_backend spec, backend, package, tag⟩

/-- Entry view handed to the user validate callback. -/
structure CacheEntry (α : Type) where
  value : α
  created_at : Int
  age : Int

/-- Validation of a cached entry: vacuously true without a validate callback
or without a creation timestamp, otherwise the callback applied to the entry
view with age = now - created_at. -/
def validate_entry {α : Type} (validate : Option (CacheEntry α → Bool))
    (now : Int) (v : α) (created : Option Int) : Bool :=
  match validate, created with
  | none, _ => true
  | some _, none => true
  | some f, some c => f ⟨v, c, now - c⟩

/-- Cache-if gate: absent predicate caches unconditionally. -/
def cache_if_ok {α : Type} (cacheIf : Option (α → Bool)) (result : α) : Bool :=
  match cacheIf with
  | none => true
  | some p => p result

/-- Combined state a memoized call touches: the backend store (the memory
backend is used as the concrete representative), the in-process manager
stats, the backend stat table (unused by the decorator) and whether the
underlying per-key lock is currently held. -/
structure SysState (α : Type) where
  store : Store α
  mgrStats : CacheManager.MgrStats
  bkStats : SqliteBackend.StatTable
  lockHeld : Bool

instance {α : Type} [DecidableEq α] : DecidableEq (SysState α) := by
  intro a b
  obtain ⟨s1, m1, b1, l1⟩ := a
  obtain ⟨s2, m2, b2, l2⟩ := b
  have : Decidable (s1 = s2 ∧ m1 = m2 ∧ b1 = b2 ∧ l1 = l2) := by infer_instance
  refine decidable_of_iff (s1 = s2 ∧ m1 = m2 ∧ b1 = b2 ∧ l1 = l2) ?_
  constructor
  · rintro ⟨rfl, rfl, rfl, rfl⟩
    rfl
  · intro h
    injection h with h1 h2 h3 h4
    exact ⟨h1, h2, h3, h4⟩

/-- Record of a hit on the manager component of the state. -/
def recordHitS {α : Type} (fn_id : Nat) (st : SysState α) : SysState α :=
  { st with mgrStats := CacheManager.record_hit st.mgrStats fn_id }

/-- Record of a miss on the manager component of the state. -/
def recordMissS {α : Type} (fn_id : Nat) (st : SysState α) : SysState α :=
  { st with mgrStats := CacheManager.record_miss st.mgrStats fn_id }

/-- Cleanup clause of the guarded section: the mutex is released only when
this caller acquired it. -/
def releaseIf {α : Type} (acquired : Bool) (st : SysState α) : SysState α :=
  if acquired then { st with lockHeld := false } else st

/-- Mutex acquisition step of the wrapper: when the bounded acquire
succeeded, the underlying per-key lock becomes held. -/
def acquireStep {α : Type} (acquireOk : Bool) (st : SysState α) : SysState α :=
  if acquireOk then { st with lockHeld := true } else st

/-- Conditional-store step of the wrapper: when the cache_if gate passes, the
result is written with the resolved ttl; otherwise nothing is stored. -/
def storeStep {α : Type} (spec : TtlSpec α) (cacheIf : Option (α → Bool))
    (now : Int) (cache_key : String) (result : α) (st : SysState α) :
    SysState α :=
  if cache_if_ok cacheIf result then
    { st with
      store := MemoryBackend.set now cache_key result
        (resolved_ttl spec result) st.store }
  else st

/-- Cache read step of the wrapper (both the fast path and the re-check
inside the guard): skipped entirely under overwrite, otherwise a
get_with_metadata whose result is kept only when present and validated. -/
def fastRead {α : Type} (overwrite : Bool)
    (validate : Option (CacheEntry α → Bool)) (now : Int) (cache_key : String)
    (st : SysState α) : Option α × SysState α :=
  if overwrite then (none, st)
  else
    match MemoryBackend.get_with_metadata now cache_key st.store with
    | ((none, _), s2) => (none, { st with store := s2 })
    | ((some v, c), s2) =>
        if validate_entry validate now v c then (some v, { st with store := s2 })
        else (none, { st with store := s2 })

/-- The synchronous wrapper body for one memoized call.

Inputs mirror the wrapper closure: the disabled/skip/overwrite flags, the
decorator configuration (ttl spec, cache_if, validate), the function identity
and derived cache key, the outcome of the bounded mutex acquisition, and the
wrapped computation as its one-call outcome (a value or an exception).

The sequence is: bypass check; fast-path read (hit returns immediately after
record_hit, no lock taken); mutex acquisition, proceeding either way;
re-check under the guard (hit records, returns and releases); record_miss
before invoking the computation; computation, whose exception propagates
after the cleanup clause runs; conditional store under cache_if with the
resolved ttl; release and return. -/
def sync_wrapper {α ε : Type} (disabled skipCache overwrite : Bool)
    (spec : TtlSpec α) (cacheIf : Option (α → Bool))
    (validate : Option (CacheEntry α → Bool))
    (fn_id : Nat) (cache_key : String) (acquireOk : Bool)
    (comp : Except ε α) (now : Int) (st : SysState α) :
    Except ε α × SysState α :=
  if disabled || skipCache then (comp, st)
  else
    match fastRead overwrite validate now cache_key st with
    | (some v, st1) => (Except.ok v, recordHitS fn_id st1)
    | (none, st1) =>
        match fastRead overwrite validate now cache_key (acquireStep acquireOk st1) with
        | (some v, st3) => (Except.ok v, releaseIf acquireOk (recordHitS fn_id st3))
        | (none, st3) =>
            match comp with
            | Except.error e =>
                (Except.error e, releaseIf acquireOk (recordMissS fn_id st3))
            | Except.ok result =>
                (Except.ok result,
                  releaseIf acquireOk
                    (storeStep spec cacheIf now cache_key result
                      (recordMissS fn_id st3)))

/-- Cache statistics result. -/
structure CacheInfo where
  hits : Nat
  misses : Nat
  currsize : Nat
  deriving DecidableEq, Repr

/-- Key pattern used by get_cache_info to count this function's entries. -/
def info_pattern (key_pfx fn_name : String) : String :=
  "*:" ++ key_pfx ++ fn_name ++ "|*"

/-- Statistics for a decorated function: hits and misses read from the
manager's in-process stats dict for the function id; currsize from counting
backend keys matching the function's key pattern (0 when the function has no
cache meta attached). -/
def get_cache_info {α : Type} (now : Int) (fn_id : Nat) (hasMeta : Bool)
    (key_pfx fn_name : String) (st : SysState α) : CacheInfo :=
  let hm := CacheManager.get_stats st.mgrStats fn_id
  if hasMeta then
    ⟨hm.1, hm.2, MemoryBackend.count now (some (info_pattern key_pfx fn_name)) st.store⟩
  else ⟨hm.1, hm.2, 0⟩

/-! ## Manipulation helpers (operations.py and decorator._attach_helpers) -/

/-- Error taxonomy of the manipulation helpers: the configuration error for
an unwrapped function, and the not-found error of a read without default. -/
inductive OpError where
  | valueError
  | keyError
  deriving DecidableEq, Repr

/-- Module-level cache_get: a ValueError when the function carries no cache
meta; otherwise a backend read that yields the value, or the default, or a
KeyError when absent with no default given. -/
def cache_get {α : Type} (meta : Option CacheMeta) (now : Int)
    (cache_key : String) (dflt : Option α) (st : Store α) :
    Except OpError α × Store α :=
  match meta with
  | none => (Except.error OpError.valueError, st)
  | some _ =>
      let r := MemoryBackend.get now cache_key st
      match r.1 with
      | none =>
          match dflt with
          | none => (Except.error OpError.keyError, r.2)
          | some d => (Except.ok d, r.2)
      | some v => (Except.ok v, r.2)

/-- Module-level cache_set: a ValueError when the function carries no cache
meta; otherwise a backend write with ttl taken from the meta record. -/
def cache_set {α : Type} (meta : Option CacheMeta) (now : Int)
    (cache_key : String) (v : α) (st : Store α) :
    Except OpError Unit × Store α :=
  match meta with
  | none => (Except.error OpError.valueError, st)
  | some m => (Except.ok (), MemoryBackend.set now cache_key v m.ttl st)

/-- Module-level cache_delete: a ValueError when the function carries no
cache meta; otherwise a backend delete. -/
def cache_delete {α : Type} (meta : Option CacheMeta)
    (cache_key : String) (st : Store α) :
    Except OpError Unit × Store α :=
  match meta with
  | none => (Except.error OpError.valueError, st)
  | some _ => (Except.ok (), MemoryBackend.delete cache_key st)

/-- Module-level cache_info: a ValueError when the function carries no cache
meta; otherwise the statistics of get_cache_info. -/
def cache_info {α : Type} (meta : Option CacheMeta) (now : Int) (fn_id : Nat)
    (key_pfx fn_name : String) (st : SysState α) : Except OpError CacheInfo :=
  match meta with
  | none => Except.error OpError.valueError
  | some _ => Except.ok (get_cache_info now fn_id true key_pfx fn_name st)

/-- Attached .get helper of a decorated function: a backend read that yields
the value, or the default, or a KeyError when absent with no default. -/
def helper_get {α : Type} (now : Int) (cache_key : String) (dflt : Option α)
    (st : Store α) : Except OpError α × Store α :=
  let r := MemoryBackend.get now cache_key st
  match r.1 with
  | none =>
      match dflt with
      | none => (Except.error OpError.keyError, r.2)
      | some d => (Except.ok d, r.2)
  | some v => (Except.ok v, r.2)

/-- Attached .set helper of a decorated function: a backend write whose ttl
is the closed-over ttl_for_backend value of the decoration. -/
def helper_set {α : Type} (ttl : Int) (now : Int) (cache_key : String) (v : α)
    (st : Store α) : Store α :=
  MemoryBackend.set now cache_key v ttl st

/-! ## Supporting lemmas -/

theorem fastRead_absent {α : Type} (overwrite : Bool)
    (validate : Option (CacheEntry α → Bool)) (now : Int) (cache_key : String)
    (st : SysState α) (h : alookup st.store cache_key = none) :
    fastRead overwrite validate now cache_key st = (none, st) := by
  cases overwrite with
  | true => simp [fastRead]
  | false => simp [fastRead, MemoryBackend.get_with_metadata, MemoryBackend.do_get, h]

@[simp] theorem get_stats_record_miss {stats : CacheManager.MgrStats} {fn_id : Nat} :
    CacheManager.get_stats (CacheManager.record_miss stats fn_id) fn_id =
      ((CacheManager.get_stats stats fn_id).1,
        (CacheManager.get_stats stats fn_id).2 + 1) := by
  simp [CacheManager.get_stats, CacheManager.record_miss]

@[simp] theorem get_stats_record_hit {stats : CacheManager.MgrStats} {fn_id : Nat} :
    CacheManager.get_stats (CacheManager.record_hit stats fn_id) fn_id =
      ((CacheManager.get_stats stats fn_id).1 + 1,
        (CacheManager.get_stats stats fn_id).2) := by
  simp [CacheManager.get_stats, CacheManager.record_hit]

/-! ## Claim theorems -/

/-- C1: when the wrapped computation of a memoized call raises after the call
reached the compute step (both cache reads missed and the mutex was
acquired), the exception propagates unmodified, the backend store is left
exactly as it was (the key stays absent), the miss counter was already
incremented before the computation ran (the hit counter is untouched), and
the per-key mutex ends up released. -/
theorem c1_compute_failure_propagates {α ε : Type} (spec : TtlSpec α)
    (cacheIf : Option (α → Bool)) (validate : Option (CacheEntry α → Bool))
    (fn_id : Nat) (cache_key : String) (e : ε) (now : Int) (st : SysState α)
    (h : alookup st.store cache_key = none) :
    (sync_wrapper false false false spec cacheIf validate fn_id cache_key true
        (Except.error e) now st).1 = Except.error e ∧
    (sync_wrapper false false false spec cacheIf validate fn_id cache_key true
        (Except.error e) now st).2.store = st.store ∧
    CacheManager.get_stats
        (sync_wrapper false false false spec cacheIf validate fn_id cache_key true
          (Except.error e) now st).2.mgrStats fn_id =
      ((CacheManager.get_stats st.mgrStats fn_id).1,
        (CacheManager.get_stats st.mgrStats fn_id).2 + 1) ∧
    (sync_wrapper false false false spec cacheIf validate fn_id cache_key true
        (Except.error e) now st).2.lockHeld = false := by
  simp [sync_wrapper, fastRead_absent, h,
    releaseIf, recordMissS, acquireStep]

/-- C1 witness: a concrete failing computation at an empty state. -/
theorem c1_compute_failure_propagates_witness :
    alookup (([] : Store Nat)) "k" = none ∧
    ((sync_wrapper (α := Nat) (ε := String) false false false (TtlSpec.fixed 300)
        none none 7 "k" true
        (Except.error "boom") 0 ⟨[], [], [], false⟩).1 = Except.error "boom" ∧
      (sync_wrapper (α := Nat) (ε := String) false false false (TtlSpec.fixed 300)
        none none 7 "k" true
        (Except.error "boom") 0 ⟨[], [], [], false⟩).2.store = ([] : Store Nat) ∧
      CacheManager.get_stats
        (sync_wrapper (α := Nat) (ε := String) false false false (TtlSpec.fixed 300)
          none none 7 "k" true
          (Except.error "boom") 0 ⟨[], [], [], false⟩).2.mgrStats 7 =
        ((CacheManager.get_stats [] 7).1, (CacheManager.get_stats [] 7).2 + 1) ∧
      (sync_wrapper (α := Nat) (ε := String) false false false (TtlSpec.fixed 300)
        none none 7 "k" true
        (Except.error "boom") 0 ⟨[], [], [], false⟩).2.lockHeld = false) :=
  ⟨rfl, c1_compute_failure_propagates (TtlSpec.fixed 300) none none 7 "k" "boom" 0
    ⟨[], [], [], false⟩ rfl⟩

/-- C3 counterexample: after set(K, V, 0) written at time 5, a read at time 5
-- a read time not earlier than the write time -- returns the value on both
backends, because expiry requires the read time to be strictly greater than
the expiry timestamp; so the claim as stated (NOT_FOUND at every read time
greater than or equal to the write time) is false. -/
theorem c3_zero_ttl_equal_time_is_hit :
    (MemoryBackend.get 5 "k" (MemoryBackend.set 5 "k" (42 : Nat) 0 [])).1 = some 42 ∧
    (SqliteBackend.get 5 "k" (SqliteBackend.set 5 "k" (42 : Nat) 0 [])).1 = some 42 := by
  constructor <;> rfl

/-- C3 amended: after set(K, V, 0), a read at any time strictly later than
the write time returns NOT_FOUND on both the memory and the sqlite backend
(at a read time exactly equal to the write time the ttl = 0 entry is not yet
treated as expired and the value is still returned). -/
theorem c3_zero_ttl_later_read_misses {α : Type} (s : Store α) (k : String)
    (v : α) (w t : Int) (h : t > w) :
    (MemoryBackend.get t k (MemoryBackend.set w k v 0 s)).1 = none ∧
    (SqliteBackend.get t k (SqliteBackend.set w k v 0 s)).1 = none := by
  constructor
  · simp [MemoryBackend.get, MemoryBackend.do_get, MemoryBackend.set,
      MemoryBackend.do_set, alookup_aset_self, h]
  · simp [SqliteBackend.get, SqliteBackend.set, alookup_aset_self, h]

/-- C3 witness: write at time 5, read at time 6. -/
theorem c3_zero_ttl_later_read_misses_witness :
    (6 : Int) > 5 ∧
    ((MemoryBackend.get 6 "k" (MemoryBackend.set 5 "k" (42 : Nat) 0 [])).1 = none ∧
      (SqliteBackend.get 6 "k" (SqliteBackend.set 5 "k" (42 : Nat) 0 [])).1 = none) :=
  ⟨by decide, c3_zero_ttl_later_read_misses [] "k" 42 5 6 (by decide)⟩

/-- C4 counterexample: on the sqlite backend a stored blob that fails to
deserialize is returned as a miss but the corrupt row is NOT deleted -- the
store is unchanged and the entry is still present afterwards, contradicting
the claim that the corrupt entry is deleted on every backend. -/
theorem c4_sqlite_corrupt_entry_not_deleted :
    (SqliteBackend.get_with_metadata 5 "k"
        ([("k", ⟨Blob.bad, 0, 100⟩)] : Store Nat)).1 = (none, none) ∧
    (SqliteBackend.get_with_metadata 5 "k"
        ([("k", ⟨Blob.bad, 0, 100⟩)] : Store Nat)).2 =
      [("k", ⟨Blob.bad, 0, 100⟩)] ∧
    alookup ((SqliteBackend.get_with_metadata 5 "k"
        ([("k", ⟨Blob.bad, 0, 100⟩)] : Store Nat)).2) "k" =
      some ⟨Blob.bad, 0, 100⟩ := by
  refine ⟨rfl, rfl, rfl⟩

/-- C4 amended: a stored blob that fails to deserialize is treated as a miss
by get and get_with_metadata on both backends -- NOT_FOUND is returned and no
deserialization error reaches the caller (reads are total functions into the
option type); the memory backend additionally deletes the corrupt entry,
while the sqlite backend leaves the corrupt row in place. -/
theorem c4_corrupt_read_is_miss {α : Type} (st : Store α) (k : String)
    (e : Entry α) (now : Int) (h1 : alookup st k = some e)
    (h2 : e.value = Blob.bad) (h3 : ¬ now > e.expires_at) :
    MemoryBackend.get_with_metadata now k st = ((none, none), aerase st k) ∧
    (MemoryBackend.get now k st).1 = none ∧
    SqliteBackend.get_with_metadata now k st = ((none, none), st) ∧
    (SqliteBackend.get now k st).1 = none ∧
    (SqliteBackend.get now k st).2 = st := by
  refine ⟨?_, ?_, ?_, ?_, ?_⟩ <;>
    simp [MemoryBackend.get, MemoryBackend.get_with_metadata, MemoryBackend.do_get,
      SqliteBackend.get, SqliteBackend.get_with_metadata, h1, h2, h3]

/-- C4 witness: a concrete corrupt, unexpired entry on both backends. -/
theorem c4_corrupt_read_is_miss_witness :
    alookup ([("k", ⟨Blob.bad, 0, 100⟩)] : Store Nat) "k" = some ⟨Blob.bad, 0, 100⟩ ∧
    (Entry.value (α := Nat) ⟨Blob.bad, 0, 100⟩ = Blob.bad ∧ ¬ (5 : Int) > 100) ∧
    (MemoryBackend.get_with_metadata 5 "k" ([("k", ⟨Blob.bad, 0, 100⟩)] : Store Nat) =
        ((none, none), aerase [("k", ⟨Blob.bad, 0, 100⟩)] "k") ∧
      (MemoryBackend.get 5 "k" ([("k", ⟨Blob.bad, 0, 100⟩)] : Store Nat)).1 = none ∧
      SqliteBackend.get_with_metadata 5 "k" ([("k", ⟨Blob.bad, 0, 100⟩)] : Store Nat) =
        ((none, none), [("k", ⟨Blob.bad, 0, 100⟩)]) ∧
      (SqliteBackend.get 5 "k" ([("k", ⟨Blob.bad, 0, 100⟩)] : Store Nat)).1 = none ∧
      (SqliteBackend.get 5 "k" ([("k", ⟨Blob.bad, 0, 100⟩)] : Store Nat)).2 =
        [("k", ⟨Blob.bad, 0, 100⟩)]) :=
  ⟨rfl, ⟨rfl, by decide⟩,
    c4_corrupt_read_is_miss [("k", ⟨Blob.bad, 0, 100⟩)] "k" ⟨Blob.bad, 0, 100⟩ 5
      rfl rfl (by decide)⟩

/-- C5: the registry discriminant of a dynamically-ttl'd decoration is the
sentinel -1 (the CacheMeta ttl field and the manager registry key both carry
it), an int ttl uses the literal value for both, and on a successful compute
that passes the cache_if gate the store receives expires_at = now + f(result)
for a callable ttl f, and now + n for a literal ttl n. -/
theorem c5_dynamic_ttl_sentinel {α ε : Type} (f : α → Int) (n : Int)
    (b p tg : String) (cacheIf : Option (α → Bool))
    (validate : Option (CacheEntry α → Bool)) (fn_id : Nat) (cache_key : String)
    (v : α) (now : Int) (st : SysState α)
    (h : alookup st.store cache_key = none) (hci : cache_if_ok cacheIf v = true) :
    (mkCacheMeta (TtlSpec.dyn f) b p tg).ttl = -1 ∧
    CacheManager.registry_key p b (ttl_for_backend (TtlSpec.dyn f)) = (p, b, -1) ∧
    (mkCacheMeta (α := α) (TtlSpec.fixed n) b p tg).ttl = n ∧
    CacheManager.registry_key p b (ttl_for_backend (α := α) (TtlSpec.fixed n)) = (p, b, n) ∧
    (sync_wrapper (ε := ε) false false false (TtlSpec.dyn f) cacheIf validate
        fn_id cache_key true (Except.ok v) now st).2.store =
      aset st.store cache_key ⟨Blob.ok v, now, now + f v⟩ ∧
    (sync_wrapper (ε := ε) false false false (TtlSpec.fixed n) cacheIf validate
        fn_id cache_key true (Except.ok v) now st).2.store =
      aset st.store cache_key ⟨Blob.ok v, now, now + n⟩ := by
  refine ⟨rfl, rfl, rfl, rfl, ?_, ?_⟩ <;>
    simp [sync_wrapper, fastRead_absent, h,
      hci, releaseIf, recordMissS, acquireStep, storeStep,
      MemoryBackend.set, MemoryBackend.do_set, resolved_ttl]

/-- C5 witness: a concrete dynamic ttl function applied at a concrete result. -/
theorem c5_dynamic_ttl_sentinel_witness :
    alookup (([] : Store Nat)) "k" = none ∧
    cache_if_ok (α := Nat) none 2 = true ∧
    ((mkCacheMeta (α := Nat) (TtlSpec.dyn (fun x => (x : Int) + 10)) "memory" "p" "").ttl = -1 ∧
      (sync_wrapper (α := Nat) (ε := Unit) false false false
          (TtlSpec.dyn (fun x => (x : Int) + 10)) none none 7 "k" true
          (Except.ok 2) 0 ⟨[], [], [], false⟩).2.store =
        aset [] "k" ⟨Blob.ok 2, 0, 0 + ((2 : Int) + 10)⟩) := by
  have h := c5_dynamic_ttl_sentinel (α := Nat) (ε := Unit)
    (fun x => (x : Int) + 10) 300 "memory" "p" "" none none 7 "k" 2 0
    ⟨[], [], [], false⟩ rfl rfl
  exact ⟨rfl, rfl, h.1, h.2.2.2.2.1⟩

/-- C6: a per-key mutex acquisition timeout does not fail the call: with the
underlying lock held by another caller and acquire returning false, the
caller still re-checks the cache, records a miss, computes, stores the result
uncoordinated and returns it, while the foreign lock is left exactly as it
was (never released by this caller); on the mutex itself, a timed-out acquire
leaves the handle unacquired, so its release is a no-op on the held lock. -/
theorem c6_lock_timeout_degrades {α ε : Type} (spec : TtlSpec α)
    (cacheIf : Option (α → Bool)) (validate : Option (CacheEntry α → Bool))
    (fn_id : Nat) (cache_key : String) (v : α) (now : Int) (st : SysState α)
    (h : alookup st.store cache_key = none) (hlock : st.lockHeld = true)
    (hci : cache_if_ok cacheIf v = true) :
    (sync_wrapper (ε := ε) false false false spec cacheIf validate fn_id
        cache_key false (Except.ok v) now st).1 = Except.ok v ∧
    (sync_wrapper (ε := ε) false false false spec cacheIf validate fn_id
        cache_key false (Except.ok v) now st).2.store =
      aset st.store cache_key ⟨Blob.ok v, now, now + resolved_ttl spec v⟩ ∧
    CacheManager.get_stats
        (sync_wrapper (ε := ε) false false false spec cacheIf validate fn_id
          cache_key false (Except.ok v) now st).2.mgrStats fn_id =
      ((CacheManager.get_stats st.mgrStats fn_id).1,
        (CacheManager.get_stats st.mgrStats fn_id).2 + 1) ∧
    (sync_wrapper (ε := ε) false false false spec cacheIf validate fn_id
        cache_key false (Except.ok v) now st).2.lockHeld = true ∧
    (∀ m : ThreadingMutex, (m.acquire true).1 = false ∧
      ((m.acquire true).2.1.release true) = ((m.acquire true).2.1, true)) := by
  refine ⟨?_, ?_, ?_, ?_, ?_⟩
  · simp [sync_wrapper, fastRead_absent, h, hci, releaseIf, recordMissS,
      acquireStep, storeStep]
  · simp [sync_wrapper, fastRead_absent, h, hci, releaseIf, recordMissS,
      acquireStep, storeStep, MemoryBackend.set, MemoryBackend.do_set]
  · simp [sync_wrapper, fastRead_absent, h, hci, releaseIf, recordMissS,
      acquireStep, storeStep]
  · simp [sync_wrapper, fastRead_absent, h, hci, releaseIf, recordMissS,
      acquireStep, storeStep, hlock]
  · intro m
    constructor
    · simp [ThreadingMutex.acquire]
    · simp [ThreadingMutex.acquire, ThreadingMutex.release]

/-- C6 witness: a concrete run against a lock held by another caller. -/
theorem c6_lock_timeout_degrades_witness :
    alookup (([] : Store Nat)) "k" = none ∧
    (SysState.lockHeld (α := Nat) ⟨[], [], [], true⟩ = true ∧
      cache_if_ok (α := Nat) none 42 = true) ∧
    ((sync_wrapper (α := Nat) (ε := Unit) false false false (TtlSpec.fixed 300)
        none none 7 "k" false (Except.ok 42) 0 ⟨[], [], [], true⟩).1 = Except.ok 42 ∧
      (sync_wrapper (α := Nat) (ε := Unit) false false false (TtlSpec.fixed 300)
        none none 7 "k" false (Except.ok 42) 0 ⟨[], [], [], true⟩).2.lockHeld = true) := by
  have h := c6_lock_timeout_degrades (α := Nat) (ε := Unit) (TtlSpec.fixed 300)
    none none 7 "k" 42 0 ⟨[], [], [], true⟩ rfl rfl rfl
  exact ⟨rfl, ⟨rfl, rfl⟩, h.1, h.2.2.2.1⟩

/-- C7: on every mutex variant, release without a prior successful acquire
(acquired flag clear, as after construction or after a timed-out acquire) is
a no-op on the handle and on the underlying lock; and after one successful
acquire, the first release frees the underlying lock and a second release of
the same handle changes nothing, so the lock is released at most once. -/
theorem c7_release_noop_and_at_most_once :
    (∀ m : NullMutex, m.release = m) ∧
    (∀ (m : ThreadingMutex) (lockHeld : Bool), m.acquired = false →
      m.release lockHeld = (m, lockHeld)) ∧
    (∀ (m : AsyncioMutex) (lockHeld : Bool), m.acquired = false →
      m.release lockHeld = (m, lockHeld)) ∧
    (∀ (m : RedisMutex) (stored : Option Nat), m.acquired = false →
      m.release stored = (m, stored)) ∧
    (∀ m : ThreadingMutex,
      (m.acquire false).1 = true ∧
      ((m.acquire false).2.1.release (m.acquire false).2.2) = (⟨m.key, false⟩, false) ∧
      ThreadingMutex.release ⟨m.key, false⟩ false = (⟨m.key, false⟩, false)) ∧
    (∀ m : AsyncioMutex,
      (m.acquire false).1 = true ∧
      ((m.acquire false).2.1.release (m.acquire false).2.2) = (⟨m.key, false⟩, false) ∧
      AsyncioMutex.release ⟨m.key, false⟩ false = (⟨m.key, false⟩, false)) ∧
    (∀ m : RedisMutex,
      (m.acquire none).1 = true ∧
      ((m.acquire none).2.1.release (m.acquire none).2.2) =
        (⟨m.key, m.token, false⟩, none) ∧
      RedisMutex.release ⟨m.key, m.token, false⟩ none =
        (⟨m.key, m.token, false⟩, none)) := by
  refine ⟨fun m => rfl, ?_, ?_, ?_, ?_, ?_, ?_⟩
  · intro m lockHeld hm
    simp [ThreadingMutex.release, hm]
  · intro m lockHeld hm
    simp [AsyncioMutex.release, hm]
  · intro m stored hm
    simp [RedisMutex.release, hm]
  · intro m
    refine ⟨rfl, ?_, ?_⟩ <;> simp [ThreadingMutex.acquire, ThreadingMutex.release]
  · intro m
    refine ⟨rfl, ?_, ?_⟩ <;> simp [AsyncioMutex.acquire, AsyncioMutex.release]
  · intro m
    refine ⟨rfl, ?_, ?_⟩ <;> simp [RedisMutex.acquire, RedisMutex.release]

/-- C7 witness: concrete unacquired handles released over a held lock. -/
theorem c7_release_noop_witness :
    (ThreadingMutex.acquired ⟨"k", false⟩ = false ∧
      ThreadingMutex.release ⟨"k", false⟩ true = (⟨"k", false⟩, true)) ∧
    (AsyncioMutex.acquired ⟨"k", false⟩ = false ∧
      AsyncioMutex.release ⟨"k", false⟩ true = (⟨"k", false⟩, true)) ∧
    (RedisMutex.acquired ⟨"k", 99, false⟩ = false ∧
      RedisMutex.release ⟨"k", 99, false⟩ (some 3) = (⟨"k", 99, false⟩, some 3)) :=
  ⟨⟨rfl, c7_release_noop_and_at_most_once.2.1 ⟨"k", false⟩ true rfl⟩,
    ⟨rfl, c7_release_noop_and_at_most_once.2.2.1 ⟨"k", false⟩ true rfl⟩,
    ⟨rfl, c7_release_noop_and_at_most_once.2.2.2.1 ⟨"k", 99, false⟩ (some 3) rfl⟩⟩

/-- C8 counterexample: two mutex handles obtained from two DISTINCT memory
backend instances (instance ids 0 and 1) for the same key name the same
underlying registry lock, contradicting the claim that a handle from a
distinct backend instance does not share the lock. -/
theorem c8_distinct_memory_instances_share_lock :
    (MemoryBackend.get_mutex 0 "k").lockId = (MemoryBackend.get_mutex 1 "k").lockId ∧
    (0 : Nat) ≠ 1 := by
  exact ⟨rfl, by decide⟩

/-- C8 amended: get_mutex names the shared ThreadingMutex registry lock by
backend kind (plus, for sqlite, the database file path) and key -- not by
backend instance.  Hence two handles from the same backend for the same key
contend on one lock (the claim's first half holds), but so do handles from
any two memory backend instances for the same key; sqlite backends share a
key's lock exactly by file path, and locks of different kinds or different
file paths are distinct. -/
theorem c8_mutex_lock_scoping :
    (∀ (i j : Nat) (k : String),
      (MemoryBackend.get_mutex i k).lockId = (MemoryBackend.get_mutex j k).lockId) ∧
    (∀ (i : Nat) (k : String),
      (MemoryBackend.get_mutex i k).lockId = "memory:" ++ k) ∧
    (∀ (fp k : String),
      (SqliteBackend.get_mutex fp k).lockId = "sqlite:" ++ fp ++ ":" ++ k) ∧
    (SqliteBackend.get_mutex "a.db" "k").lockId ≠
      (SqliteBackend.get_mutex "b.db" "k").lockId ∧
    (MemoryBackend.get_mutex 0 "k").lockId ≠
      (SqliteBackend.get_mutex "a.db" "k").lockId := by
  refine ⟨fun i j k => rfl, fun i k => rfl, fun fp k => rfl, by decide, by decide⟩

/-- C9: every manipulation helper called on a function without cache meta
fails immediately with the configuration error (ValueError); cache_get and
the attached .get helper fail with the distinct not-found error (KeyError)
when the key is absent and no default was given, and return the default when
one was; and the two error kinds are distinct. -/
theorem c9_helper_error_taxonomy {α : Type} :
    (∀ (now : Int) (ck : String) (dflt : Option α) (st : Store α),
      cache_get none now ck dflt st = (Except.error OpError.valueError, st)) ∧
    (∀ (now : Int) (ck : String) (v : α) (st : Store α),
      cache_set none now ck v st = (Except.error OpError.valueError, st)) ∧
    (∀ (ck : String) (st : Store α),
      cache_delete none ck st = (Except.error OpError.valueError, st)) ∧
    (∀ (now : Int) (fn_id : Nat) (pfx fn_name : String) (st : SysState α),
      cache_info none now fn_id pfx fn_name st = Except.error OpError.valueError) ∧
    (∀ (m : CacheMeta) (now : Int) (ck : String) (st : Store α),
      alookup st ck = none →
        cache_get (some m) now ck none st = (Except.error OpError.keyError, st)) ∧
    (∀ (m : CacheMeta) (now : Int) (ck : String) (d : α) (st : Store α),
      alookup st ck = none →
        cache_get (some m) now ck (some d) st = (Except.ok d, st)) ∧
    (∀ (now : Int) (ck : String) (st : Store α),
      alookup st ck = none →
        helper_get (α := α) now ck none st = (Except.error OpError.keyError, st)) ∧
    OpError.valueError ≠ OpError.keyError := by
  refine ⟨fun _ _ _ _ => rfl, fun _ _ _ _ => rfl, fun _ _ => rfl, fun _ _ _ _ _ => rfl,
    ?_, ?_, ?_, by decide⟩
  · intro m now ck st h
    simp [cache_get, MemoryBackend.get, MemoryBackend.do_get, h]
  · intro m now ck d st h
    simp [cache_get, MemoryBackend.get, MemoryBackend.do_get, h]
  · intro now ck st h
    simp [helper_get, MemoryBackend.get, MemoryBackend.do_get, h]

/-- C9 witness: KeyError on an absent key without default, the default when
one is given, at a concrete meta and empty store. -/
theorem c9_helper_error_taxonomy_witness :
    alookup (([] : Store Nat)) "k" = none ∧
    (cache_get (some ⟨300, "memory", "p", ""⟩) 0 "k" none ([] : Store Nat) =
        (Except.error OpError.keyError, []) ∧
      cache_get (some ⟨300, "memory", "p", ""⟩) 0 "k" (some 9) ([] : Store Nat) =
        (Except.ok 9, []) ∧
      helper_get (α := Nat) 0 "k" none [] = (Except.error OpError.keyError, [])) :=
  ⟨rfl,
    (c9_helper_error_taxonomy (α := Nat)).2.2.2.2.1 ⟨300, "memory", "p", ""⟩ 0 "k" [] rfl,
    (c9_helper_error_taxonomy (α := Nat)).2.2.2.2.2.1 ⟨300, "memory", "p", ""⟩ 0 "k" 9 [] rfl,
    (c9_helper_error_taxonomy (α := Nat)).2.2.2.2.2.2.1 0 "k" [] rfl⟩

/-- C10: for a decoration whose ttl argument is callable, the direct-write
helpers (the attached .set, which closes over ttl_for_backend, and the
module-level cache_set, which uses the meta ttl) store with ttl equal to the
sentinel -1, so the written entry has expires_at = now - 1, strictly in the
past, and every read at a time not earlier than the write misses; the
memoized-call path is the one that applies the ttl function to the result
(per the C5 theorem). -/
theorem c10_direct_set_with_dynamic_ttl_expires {α : Type} (f : α → Int)
    (b p tg : String) (now : Int) (ck : String) (v : α) (st : Store α)
    (t : Int) (ht : t ≥ now) :
    (mkCacheMeta (TtlSpec.dyn f) b p tg).ttl = -1 ∧
    (cache_set (some (mkCacheMeta (TtlSpec.dyn f) b p tg)) now ck v st).2 =
      aset st ck ⟨Blob.ok v, now, now - 1⟩ ∧
    helper_set (ttl_for_backend (TtlSpec.dyn f)) now ck v st =
      aset st ck ⟨Blob.ok v, now, now - 1⟩ ∧
    now - 1 < now ∧
    (MemoryBackend.get t ck
        ((cache_set (some (mkCacheMeta (TtlSpec.dyn f) b p tg)) now ck v st).2)).1 =
      none := by
  have he : now + (-1 : Int) = now - 1 := by omega
  refine ⟨rfl, ?_, ?_, by omega, ?_⟩
  · simp [cache_set, MemoryBackend.set, MemoryBackend.do_set, mkCacheMeta,
      ttl_for_backend, he]
  · simp [helper_set, MemoryBackend.set, MemoryBackend.do_set, ttl_for_backend, he]
  · have hgt : now + (-1 : Int) < t := by omega
    simp [cache_set, MemoryBackend.get, MemoryBackend.do_get, MemoryBackend.set,
      MemoryBackend.do_set, mkCacheMeta, ttl_for_backend, alookup_aset_self, hgt]

/-- C10 witness: a concrete direct write under a dynamic ttl, read back at
the write time. -/
theorem c10_direct_set_with_dynamic_ttl_expires_witness :
    (5 : Int) ≥ 5 ∧
    ((mkCacheMeta (α := Nat) (TtlSpec.dyn (fun x => (x : Int))) "memory" "p" "").ttl = -1 ∧
      (MemoryBackend.get 5 "k"
        ((cache_set (some (mkCacheMeta (α := Nat) (TtlSpec.dyn (fun x => (x : Int)))
            "memory" "p" "")) 5 "k" 42 ([] : Store Nat)).2)).1 = none) := by
  have h := c10_direct_set_with_dynamic_ttl_expires (α := Nat)
    (fun x => (x : Int)) "memory" "p" "" 5 "k" 42 [] 5 (by decide)
  exact ⟨by decide, h.1, h.2.2.2.2⟩

theorem fastRead_bkStats {α : Type} (overwrite : Bool)
    (validate : Option (CacheEntry α → Bool)) (now : Int) (cache_key : String)
    (st : SysState α) :
    (fastRead overwrite validate now cache_key st).2.bkStats = st.bkStats := by
  unfold fastRead
  split
  · rfl
  · split
    · rfl
    · split <;> rfl

@[simp] theorem releaseIf_bkStats {α : Type} (b : Bool) (st : SysState α) :
    (releaseIf b st).bkStats = st.bkStats := by
  cases b <;> rfl

@[simp] theorem recordHitS_bkStats {α : Type} (fn_id : Nat) (st : SysState α) :
    (recordHitS fn_id st).bkStats = st.bkStats := rfl

@[simp] theorem recordMissS_bkStats {α : Type} (fn_id : Nat) (st : SysState α) :
    (recordMissS fn_id st).bkStats = st.bkStats := rfl

@[simp] theorem acquireStep_bkStats {α : Type} (b : Bool) (st : SysState α) :
    (acquireStep b st).bkStats = st.bkStats := by
  cases b <;> rfl

@[simp] theorem storeStep_bkStats {α : Type} (spec : TtlSpec α)
    (cacheIf : Option (α → Bool)) (now : Int) (cache_key : String) (result : α)
    (st : SysState α) :
    (storeStep spec cacheIf now cache_key result st).bkStats = st.bkStats := by
  unfold storeStep
  split <;> rfl

theorem sync_wrapper_bkStats {α ε : Type} (disabled skipCache overwrite : Bool)
    (spec : TtlSpec α) (cacheIf : Option (α → Bool))
    (validate : Option (CacheEntry α → Bool)) (fn_id : Nat) (cache_key : String)
    (acquireOk : Bool) (comp : Except ε α) (now : Int) (st : SysState α) :
    (sync_wrapper disabled skipCache overwrite spec cacheIf validate fn_id
      cache_key acquireOk comp now st).2.bkStats = st.bkStats := by
  have hfr1 := fastRead_bkStats overwrite validate now cache_key st
  unfold sync_wrapper
  split
  · rfl
  · split
    · rename_i v st1 heq
      rw [heq] at hfr1
      simpa using hfr1
    · rename_i st1 heq
      rw [heq] at hfr1
      simp only at hfr1
      have hfr2 := fastRead_bkStats overwrite validate now cache_key
        (acquireStep acquireOk st1)
      simp only [acquireStep_bkStats] at hfr2
      split
      · rename_i v st3 heq3
        rw [heq3] at hfr2
        simp only at hfr2
        simp [hfr2, hfr1]
      · rename_i st3 heq3
        rw [heq3] at hfr2
        simp only at hfr2
        cases comp <;> simp [hfr2, hfr1]

/-- C2 counterexample: after one concrete cache-missing memoized call, the
statistics reported by get_cache_info do not come from the backend stat
counters -- the report shows the recorded miss while incr_stat was never
called, so the backend table still reads (0, 0); the claim that hits and
misses are taken from the backend's incr_stat/get_stats counters is false. -/
theorem c2_info_not_from_backend_counters :
    ¬ ((get_cache_info 0 7 true "p" "fn"
          (sync_wrapper (α := Nat) (ε := Unit) false false false
            (TtlSpec.fixed 300) none none 7 "300:pfn|tag|x=1" true
            (Except.ok 42) 0 ⟨[], [], [], false⟩).2).hits =
        (SqliteBackend.get_stats
          (sync_wrapper (α := Nat) (ε := Unit) false false false
            (TtlSpec.fixed 300) none none 7 "300:pfn|tag|x=1" true
            (Except.ok 42) 0 ⟨[], [], [], false⟩).2.bkStats "fn").1 ∧
      (get_cache_info 0 7 true "p" "fn"
          (sync_wrapper (α := Nat) (ε := Unit) false false false
            (TtlSpec.fixed 300) none none 7 "300:pfn|tag|x=1" true
            (Except.ok 42) 0 ⟨[], [], [], false⟩).2).misses =
        (SqliteBackend.get_stats
          (sync_wrapper (α := Nat) (ε := Unit) false false false
            (TtlSpec.fixed 300) none none 7 "300:pfn|tag|x=1" true
            (Except.ok 42) 0 ⟨[], [], [], false⟩).2.bkStats "fn").2) := by
  decide

/-- C2 amended: get_cache_info reports hits and misses read from the
manager's in-process per-function-identity counters (fed by
record_hit/record_miss), not from the backend's incr_stat/get_stats stat
counters, which no decorator path ever updates; currsize is, as claimed,
computed by counting backend keys matching the function's key pattern.
Concretely, a miss call followed by a hit call on one key yields a report of
one hit, one miss and one live entry while the backend stat table for the
function name still reads (0, 0). -/
theorem c2_cache_info_sources {α ε : Type} :
    (∀ (now : Int) (fn_id : Nat) (key_pfx fn_name : String) (st : SysState α),
      get_cache_info now fn_id true key_pfx fn_name st =
        ⟨(CacheManager.get_stats st.mgrStats fn_id).1,
          (CacheManager.get_stats st.mgrStats fn_id).2,
          MemoryBackend.count now (some (info_pattern key_pfx fn_name)) st.store⟩) ∧
    (∀ (disabled skipCache overwrite : Bool) (spec : TtlSpec α)
        (cacheIf : Option (α → Bool)) (validate : Option (CacheEntry α → Bool))
        (fn_id : Nat) (cache_key : String) (acquireOk : Bool) (comp : Except ε α)
        (now : Int) (st : SysState α),
      (sync_wrapper disabled skipCache overwrite spec cacheIf validate fn_id
        cache_key acquireOk comp now st).2.bkStats = st.bkStats) ∧
    (get_cache_info 0 7 true "p" "fn"
        (sync_wrapper (α := Nat) (ε := Unit) false false false (TtlSpec.fixed 300)
          none none 7 "300:pfn|tag|x=1" true (Except.ok 42) 0
          (sync_wrapper (α := Nat) (ε := Unit) false false false (TtlSpec.fixed 300)
            none none 7 "300:pfn|tag|x=1" true (Except.ok 42) 0
            ⟨[], [], [], false⟩).2).2 = ⟨1, 1, 1⟩ ∧
      SqliteBackend.get_stats
        (sync_wrapper (α := Nat) (ε := Unit) false false false (TtlSpec.fixed 300)
          none none 7 "300:pfn|tag|x=1" true (Except.ok 42) 0
          (sync_wrapper (α := Nat) (ε := Unit) false false false (TtlSpec.fixed 300)
            none none 7 "300:pfn|tag|x=1" true (Except.ok 42) 0
            ⟨[], [], [], false⟩).2).2.bkStats "fn" = (0, 0)) := by
  refine ⟨fun _ _ _ _ _ => rfl, ?_, by decide, by decide⟩
  intro d s o spec ci vld fid ck aq comp now st
  exact sync_wrapper_bkStats d s o spec ci vld fid ck aq comp now st

end Cachu
